import Mathlib

/-!
Shallow embedding of the lymphodepletion dosimetry engine from `app.py`
(`calculate_lymphodepletion` together with its preset tables
`LYMPHODEPLETION_SETTINGS`, `BAG_TYPES`, `UV_DOSE_RANGES`).

Python floats are modelled as real numbers; the dictionary lookups
`LYMPHODEPLETION_SETTINGS[system]` and `BAG_TYPES[bag_type]`, which raise
`KeyError` on a missing name, are modelled as `Option`-returning lookups, and
the engine as an `Except`-returning wrapper that fails exactly where the
Python code would raise.
-/

namespace Lymphodepletion

/-- One entry of `LYMPHODEPLETION_SETTINGS` in `app.py` (lines 6-21). -/
structure SystemSettings where
  flow_range : ℝ × ℝ
  plasma_removal_range : ℝ × ℝ
  acd_ratio_range : ℝ × ℝ
  hct_impact : ℝ
  rbc_base_contam : ℝ

/-- `LYMPHODEPLETION_SETTINGS['Spectra Optia']`. -/
def spectraOptiaSettings : SystemSettings :=
  ⟨(40, 60), (15, 30), (11, 14), 0.3, 3.0⟩

/-- `LYMPHODEPLETION_SETTINGS['Haemonetics']`. -/
def haemoneticsSettings : SystemSettings :=
  ⟨(35, 55), (10, 25), (10, 13), 0.7, 6.0⟩

/-- The `LYMPHODEPLETION_SETTINGS` dict of `app.py`; a missing key raises
`KeyError` in Python, modelled by `none`. -/
def LYMPHODEPLETION_SETTINGS (system : String) : Option SystemSettings :=
  if system = "Spectra Optia" then some spectraOptiaSettings
  else if system = "Haemonetics" then some haemoneticsSettings
  else none

/-- One entry of `BAG_TYPES` in `app.py` (lines 24-27). -/
structure BagSettings where
  absorption : ℝ
  scattering : ℝ
  thickness : ℝ

/-- `BAG_TYPES['Spectra Optia (Polyethylene)']`. -/
def spectraBag : BagSettings := ⟨0.9, 5.5, 0.20⟩

/-- `BAG_TYPES['Haemonetics (PVC)']`. -/
def haemoneticsBag : BagSettings := ⟨1.3, 7.0, 0.25⟩

/-- The `BAG_TYPES` dict of `app.py`. -/
def BAG_TYPES (bag_type : String) : Option BagSettings :=
  if bag_type = "Spectra Optia (Polyethylene)" then some spectraBag
  else if bag_type = "Haemonetics (PVC)" then some haemoneticsBag
  else none

/-- The `UV_DOSE_RANGES` dict of `app.py` (lines 30-33). -/
def UV_DOSE_RANGES (uv_type : String) : Option (ℝ × ℝ) :=
  if uv_type = "UV-A" then some (1.0, 5.0)
  else if uv_type = "UV-B" then some (0.005, 0.4)
  else none

/-- Line 43: `hct_efficiency = 1 - params['hct_impact'] * (hct - 40)/40`. -/
noncomputable def hct_efficiency (hct_impact hct : ℝ) : ℝ :=
  1 - hct_impact * (hct - 40) / 40

/-- Line 46: `interface_factor = 1.25 * hct_efficiency`. -/
noncomputable def interface_factor (hctEff : ℝ) : ℝ := 1.25 * hctEff

/-- Line 47: `flow_factor = flow_rate / params['flow_range'][1] * hct_efficiency`. -/
noncomputable def flow_factor (flow_rate flowMax hctEff : ℝ) : ℝ :=
  flow_rate / flowMax * hctEff

/-- Line 48: `depletion_factor = 1.2 * hct_efficiency`. -/
noncomputable def depletion_factor (hctEff : ℝ) : ℝ := 1.2 * hctEff

/-- Line 51: `mnc_conc = tlc * (lymph_percent/100) * 1.3 * 6 * flow_factor * interface_factor`. -/
noncomputable def mnc_conc (tlc lymph_percent flowF interfaceF : ℝ) : ℝ :=
  tlc * (lymph_percent / 100) * 1.3 * 6 * flowF * interfaceF

/-- Line 52: `rbc_contam = params['rbc_base_contam'] * (hct/40) * (1 - plasma_removal/25)`. -/
noncomputable def rbc_contam (base hct plasma_removal : ℝ) : ℝ :=
  base * (hct / 40) * (1 - plasma_removal / 25)

/-- Lines 55-57: `transmission = np.exp(-np.sqrt(3 * a * (a + s)) * d)` for the
selected bag's absorption `a`, scattering `s` and thickness `d`. -/
noncomputable def transmission_of (bag : BagSettings) : ℝ :=
  Real.exp (-Real.sqrt (3 * bag.absorption * (bag.absorption + bag.scattering)) *
    bag.thickness)

/-- Line 58: `distance = custom_distance if not use_hood else 20`. -/
noncomputable def distance_of (use_hood : Bool) (custom_distance : ℝ) : ℝ :=
  if use_hood then 20 else custom_distance

/-- Line 59: `intensity = (lamp_power * 1000 * 0.85 * transmission) / (4 * np.pi * distance**2)`. -/
noncomputable def intensity_of (lamp_power transmission dist : ℝ) : ℝ :=
  lamp_power * 1000 * 0.85 * transmission / (4 * Real.pi * dist ^ 2)

/-- Line 62: `shielding = (0.015 * mnc_conc) + (0.03 * rbc_contam * (hct/40))`. -/
noncomputable def shielding_of (mnc rbc hct : ℝ) : ℝ :=
  0.015 * mnc + 0.03 * rbc * (hct / 40)

/-- Line 63: `effective_dose = target_dose * transmission * max(1 - shielding, 0.3) * depletion_factor`. -/
noncomputable def effective_dose_of (target_dose transmission shielding deplF : ℝ) : ℝ :=
  target_dose * transmission * max (1 - shielding) 0.3 * deplF

/-- Line 64: `exp_time = (effective_dose / (intensity / 1000)) / 60`. -/
noncomputable def exp_time_of (dose intensity : ℝ) : ℝ :=
  dose / (intensity / 1000) / 60

/-- Lines 67-68: `100*np.exp(-k*effective_dose)` with `k = 1.5` for lymphocytes
and `k = 0.25` for CD34+. -/
noncomputable def viability (k dose : ℝ) : ℝ := 100 * Real.exp (-k * dose)

/-- The result dict returned at lines 70-83 of `app.py`. -/
structure TreatmentResult where
  mnc_conc : ℝ
  rbc_contam : ℝ
  depletion_factor : ℝ
  effective_dose : ℝ
  exp_time : ℝ
  transmission : ℝ
  intensity : ℝ
  lymph_viability : ℝ
  cd34_viability : ℝ
  hct_efficiency : ℝ
  params : SystemSettings
  distance : ℝ

/-- The body of `calculate_lymphodepletion` (lines 42-83) after the two dict
lookups have succeeded: the pure computation from the resolved
`params`/`bag` records and the numeric inputs to the result record. -/
noncomputable def calcCore (params : SystemSettings) (bag : BagSettings)
    (tlc lymph_percent hct lamp_power target_dose : ℝ) (use_hood : Bool)
    (custom_distance flow_rate plasma_removal acdR : ℝ) : TreatmentResult :=
  let hctEff := hct_efficiency params.hct_impact hct
  let interfaceF := interface_factor hctEff
  let flowF := flow_factor flow_rate params.flow_range.2 hctEff
  let deplF := depletion_factor hctEff
  let mnc := mnc_conc tlc lymph_percent flowF interfaceF
  let rbc := rbc_contam params.rbc_base_contam hct plasma_removal
  let transmission := transmission_of bag
  let dist := distance_of use_hood custom_distance
  let intensity := intensity_of lamp_power transmission dist
  let shielding := shielding_of mnc rbc hct
  let dose := effective_dose_of target_dose transmission shielding deplF
  let time := exp_time_of dose intensity
  ⟨mnc, rbc, deplF, dose, time, transmission, intensity,
    viability 1.5 dose, viability 0.25 dose, hctEff, params, dist⟩

/-- Failure modes of the engine.  In the Python source both failures are
`KeyError`s raised by the dict lookups; the spec's error taxonomy names them
`UnknownProfile`, carrying the unregistered name. -/
inductive CalcError where
  | unknownProfile (name : String)

/-- `calculate_lymphodepletion` of `app.py` (lines 35-83): resolves the system
and bag names in the preset tables — failing, as the Python dict lookups do,
when a name is not registered, before any result is produced — and otherwise
runs the pure computation `calcCore`. -/
noncomputable def calculate_lymphodepletion (tlc lymph_percent hct : ℝ)
    (system : String) (lamp_power target_dose : ℝ) (use_hood : Bool)
    (custom_distance : ℝ) (bag_type : String)
    (flow_rate plasma_removal acdR : ℝ) : Except CalcError TreatmentResult :=
  match LYMPHODEPLETION_SETTINGS system with
  | none => .error (.unknownProfile system)
  | some params =>
    match BAG_TYPES bag_type with
    | none => .error (.unknownProfile bag_type)
    | some bag =>
      .ok (calcCore params bag tlc lymph_percent hct lamp_power target_dose
        use_hood custom_distance flow_rate plasma_removal acdR)

/-!  ## Theorems about the engine  -/

/-- C1: For every input, the effective dose returned by
`calculate_lymphodepletion` equals
`target_dose × transmission × max(1 − shielding, 0.3) × depletion_factor`,
where `shielding = 0.015 × MNC concentration + 0.03 × RBC contamination × (hct/40)`,
and the `max … 0.3` there is the only clamp in the pipeline: every other
stage of the result (hct efficiency, composition, transmission, intensity,
exposure time, viabilities) equals a clamp-free closed form. -/
theorem effective_dose_formula (params : SystemSettings) (bag : BagSettings)
    (tlc lymph_percent hct lamp_power target_dose : ℝ) (use_hood : Bool)
    (custom_distance flow_rate plasma_removal acdR : ℝ) :
    let r := calcCore params bag tlc lymph_percent hct lamp_power target_dose
      use_hood custom_distance flow_rate plasma_removal acdR
    r.effective_dose =
      target_dose * r.transmission *
        max (1 - (0.015 * r.mnc_conc + 0.03 * r.rbc_contam * (hct / 40))) 0.3 *
        r.depletion_factor ∧
    r.hct_efficiency = 1 - params.hct_impact * (hct - 40) / 40 ∧
    r.mnc_conc = tlc * (lymph_percent / 100) * 1.3 * 6 *
      (flow_rate / params.flow_range.2 * r.hct_efficiency) *
      (1.25 * r.hct_efficiency) ∧
    r.rbc_contam = params.rbc_base_contam * (hct / 40) * (1 - plasma_removal / 25) ∧
    r.depletion_factor = 1.2 * r.hct_efficiency ∧
    r.transmission =
      Real.exp (-Real.sqrt (3 * bag.absorption * (bag.absorption + bag.scattering)) *
        bag.thickness) ∧
    r.intensity = lamp_power * 1000 * 0.85 * r.transmission /
      (4 * Real.pi * r.distance ^ 2) ∧
    r.exp_time = r.effective_dose / (r.intensity / 1000) / 60 ∧
    r.lymph_viability = 100 * Real.exp (-1.5 * r.effective_dose) ∧
    r.cd34_viability = 100 * Real.exp (-0.25 * r.effective_dose) :=
  ⟨rfl, rfl, rfl, rfl, rfl, rfl, rfl, rfl, rfl, rfl⟩

/-- C2: The hematocrit efficiency equals `1 − hct_impact × (hct − 40)/40` with
no clamping; it equals exactly `1` at `hct = 40`, equals exactly `0.65` at
`hct = 60` with `hct_impact = 0.7` (the Haemonetics profile's coefficient),
and the interface, flow and depletion factors are each scaled by exactly this
multiplier. -/
theorem hct_efficiency_spec :
    (∀ impact hct : ℝ, hct_efficiency impact hct = 1 - impact * (hct - 40) / 40) ∧
    (∀ impact : ℝ, hct_efficiency impact 40 = 1) ∧
    hct_efficiency 0.7 60 = 0.65 ∧
    haemoneticsSettings.hct_impact = 0.7 ∧
    (∀ e : ℝ, interface_factor e = 1.25 * e) ∧
    (∀ fl m e : ℝ, flow_factor fl m e = fl / m * e) ∧
    (∀ e : ℝ, depletion_factor e = 1.2 * e) ∧
    (∀ (params : SystemSettings) (bag : BagSettings)
        (tlc lymph_percent hct lamp_power target_dose : ℝ) (use_hood : Bool)
        (custom_distance flow_rate plasma_removal acdR : ℝ),
      (calcCore params bag tlc lymph_percent hct lamp_power target_dose
          use_hood custom_distance flow_rate plasma_removal acdR).hct_efficiency =
        hct_efficiency params.hct_impact hct) := by
  refine ⟨fun _ _ => rfl, fun impact => ?_, ?_, rfl, fun _ => rfl,
    fun _ _ _ => rfl, fun _ => rfl,
    fun _ _ _ _ _ _ _ _ _ _ _ _ => rfl⟩
  · unfold hct_efficiency; ring
  · unfold hct_efficiency; norm_num

/-- The Spectra Optia bag's transmission exponent reduces to `√17.28 × 0.20`. -/
theorem trans_spectra_eq :
    transmission_of spectraBag = Real.exp (-(Real.sqrt 17.28 * 0.20)) := by
  unfold transmission_of spectraBag
  norm_num

theorem sqrt1728_lt : Real.sqrt 17.28 < 4.157 :=
  (Real.sqrt_lt' (by norm_num)).mpr (by norm_num)

theorem lt_sqrt1728 : (4.1569 : ℝ) < Real.sqrt 17.28 :=
  (Real.lt_sqrt (by norm_num)).mpr (by norm_num)

/-- Lower numeric bound for the baseline bag's transmission. -/
theorem trans_spectra_gt : (0.42 : ℝ) < transmission_of spectraBag := by
  rw [trans_spectra_eq]
  have h1 : Real.exp (-(4.157 * 0.20 : ℝ)) ≤ Real.exp (-(Real.sqrt 17.28 * 0.20)) := by
    apply Real.exp_le_exp.mpr
    have := sqrt1728_lt
    linarith
  have h2 : Real.exp (-(4.157 * 0.20 : ℝ)) = Real.exp (-(0.0519625 : ℝ)) ^ (16 : ℕ) := by
    rw [← Real.exp_nat_mul]
    norm_num
  have h3 : ((0.9480375 : ℝ)) ^ (16 : ℕ) ≤ Real.exp (-(0.0519625 : ℝ)) ^ (16 : ℕ) := by
    apply pow_le_pow_left₀ (by norm_num)
    have := Real.add_one_le_exp (-(0.0519625 : ℝ))
    linarith
  have h4 : (0.42 : ℝ) < (0.9480375 : ℝ) ^ (16 : ℕ) := by norm_num
  calc (0.42 : ℝ) < (0.9480375 : ℝ) ^ (16 : ℕ) := h4
    _ ≤ Real.exp (-(0.0519625 : ℝ)) ^ (16 : ℕ) := h3
    _ = Real.exp (-(4.157 * 0.20 : ℝ)) := h2.symm
    _ ≤ _ := h1

/-- Upper numeric bound for the baseline bag's transmission. -/
theorem trans_spectra_lt : transmission_of spectraBag < 0.45 := by
  rw [trans_spectra_eq]
  have h1 : Real.exp (-(Real.sqrt 17.28 * 0.20)) ≤ Real.exp (-(4.1569 * 0.20 : ℝ)) := by
    apply Real.exp_le_exp.mpr
    have := lt_sqrt1728
    linarith
  have h2 : Real.exp (-(4.1569 * 0.20 : ℝ)) = Real.exp (-(0.05196125 : ℝ)) ^ (16 : ℕ) := by
    rw [← Real.exp_nat_mul]
    norm_num
  have h3 : Real.exp (-(0.05196125 : ℝ)) ≤ ((1.05196125 : ℝ))⁻¹ := by
    have hle := Real.add_one_le_exp (0.05196125 : ℝ)
    have hx : Real.exp (-(0.05196125 : ℝ)) = (Real.exp (0.05196125 : ℝ))⁻¹ :=
      Real.exp_neg _
    rw [hx]
    have h0 : (0 : ℝ) < 1.05196125 := by norm_num
    have : (1.05196125 : ℝ) ≤ Real.exp (0.05196125 : ℝ) := by linarith
    exact inv_anti₀ h0 this
  have h4 : Real.exp (-(0.05196125 : ℝ)) ^ (16 : ℕ) ≤ ((1.05196125 : ℝ))⁻¹ ^ (16 : ℕ) :=
    pow_le_pow_left₀ (Real.exp_pos _).le h3 16
  have h5 : ((1.05196125 : ℝ))⁻¹ ^ (16 : ℕ) < 0.45 := by
    rw [inv_pow]
    rw [inv_lt_iff_one_lt_mul₀ (by positivity)]
    norm_num
  calc Real.exp (-(Real.sqrt 17.28 * 0.20))
      ≤ Real.exp (-(4.1569 * 0.20 : ℝ)) := h1
    _ = Real.exp (-(0.05196125 : ℝ)) ^ (16 : ℕ) := h2
    _ ≤ ((1.05196125 : ℝ))⁻¹ ^ (16 : ℕ) := h4
    _ < 0.45 := h5

/-- C3 counterexample: for the Spectra Optia (Polyethylene) bag
(`a = 0.9`, `s = 5.5`, `d = 0.20`) the transmission computed by
`exp(−sqrt(3·a·(a+s))·d)` is NOT approximately `0.082`: it differs from
`0.082` by more than `0.3`. -/
theorem transmission_baseline_not_approx_0082 :
    BAG_TYPES "Spectra Optia (Polyethylene)" = some spectraBag ∧
    0.3 < |transmission_of spectraBag - 0.082| := by
  constructor
  · simp [BAG_TYPES]
  · have h := trans_spectra_gt
    have h2 : (0.3 : ℝ) < transmission_of spectraBag - 0.082 := by linarith
    exact lt_of_lt_of_le h2 (le_abs_self _)

/-- C3 amended: for the Spectra Optia (Polyethylene) bag the transmission
computed by `exp(−sqrt(3·a·(a+s))·d)` with `a = 0.9`, `s = 5.5`, `d = 0.20`
is approximately `0.44` — strictly between `0.42` and `0.45` — not `0.082`. -/
theorem transmission_baseline_value :
    BAG_TYPES "Spectra Optia (Polyethylene)" = some spectraBag ∧
    0.42 < transmission_of spectraBag ∧ transmission_of spectraBag < 0.45 :=
  ⟨by simp [BAG_TYPES], trans_spectra_gt, trans_spectra_lt⟩

/-- A successful system lookup yields one of the two registered profiles. -/
theorem registry_cases {system : String} {s : SystemSettings}
    (h : LYMPHODEPLETION_SETTINGS system = some s) :
    s = spectraOptiaSettings ∨ s = haemoneticsSettings := by
  unfold LYMPHODEPLETION_SETTINGS at h
  split at h
  · exact Or.inl (Option.some_injective _ h).symm
  · split at h
    · exact Or.inr (Option.some_injective _ h).symm
    · exact absurd h (by simp)

/-- A successful bag lookup yields one of the two registered bags. -/
theorem bag_registry_cases {name : String} {b : BagSettings}
    (h : BAG_TYPES name = some b) :
    b = spectraBag ∨ b = haemoneticsBag := by
  unfold BAG_TYPES at h
  split at h
  · exact Or.inl (Option.some_injective _ h).symm
  · split at h
    · exact Or.inr (Option.some_injective _ h).symm
    · exact absurd h (by simp)

/-- C4 counterexample: with the Spectra Optia profile, whose declared
plasma-removal range is `[15, 30]`, the in-range input `plasma_removal = 30`
(all other inputs also in range: `tlc = 10`, `lymph% = 40`, `hct = 40`,
`lamp = 25 W`, `target dose = 3`, `flow = 45`) yields a NEGATIVE red-cell
contamination, `3 × (40/40) × (1 − 30/25) = −0.6`. -/
theorem rbc_contam_negative_in_range :
    LYMPHODEPLETION_SETTINGS "Spectra Optia" = some spectraOptiaSettings ∧
    spectraOptiaSettings.plasma_removal_range = (15, 30) ∧
    (calcCore spectraOptiaSettings spectraBag 10 40 40 25 3 true 20 45 30
        12).rbc_contam = -0.6 := by
  refine ⟨by simp [LYMPHODEPLETION_SETTINGS], rfl, ?_⟩
  show rbc_contam spectraOptiaSettings.rbc_base_contam 40 30 = -0.6
  norm_num [rbc_contam, spectraOptiaSettings]

/-- C4 amended: for every registered system profile, the MNC concentration is
non-negative whenever `tlc`, `lymph_percent` and `flow_rate` are non-negative
(it contains the square of the hematocrit efficiency), and the red-cell
contamination is non-negative whenever additionally `hct ≥ 0` and
`plasma_removal ≤ 25`.  The Spectra Optia profile's declared plasma-removal
range extends to `30`, where the contamination estimate goes negative, so
non-negativity does NOT hold on all of its declared range. -/
theorem composition_nonneg {system : String} {s : SystemSettings}
    (bag : BagSettings) {tlc lymph_percent hct flow_rate plasma_removal : ℝ}
    (lamp_power target_dose : ℝ) (use_hood : Bool) (custom_distance acdR : ℝ)
    (hs : LYMPHODEPLETION_SETTINGS system = some s)
    (htlc : 0 ≤ tlc) (hlp : 0 ≤ lymph_percent)
    (hhct : 0 ≤ hct) (hflow : 0 ≤ flow_rate)
    (hpr : plasma_removal ≤ 25) :
    0 ≤ (calcCore s bag tlc lymph_percent hct lamp_power target_dose use_hood
        custom_distance flow_rate plasma_removal acdR).mnc_conc ∧
    0 ≤ (calcCore s bag tlc lymph_percent hct lamp_power target_dose use_hood
        custom_distance flow_rate plasma_removal acdR).rbc_contam := by
  have hmax : 0 < s.flow_range.2 := by
    rcases registry_cases hs with h | h <;> subst h <;>
      norm_num [spectraOptiaSettings, haemoneticsSettings]
  have hbase : 0 < s.rbc_base_contam := by
    rcases registry_cases hs with h | h <;> subst h <;>
      norm_num [spectraOptiaSettings, haemoneticsSettings]
  constructor
  · show 0 ≤ mnc_conc tlc lymph_percent
      (flow_factor flow_rate s.flow_range.2 (hct_efficiency s.hct_impact hct))
      (interface_factor (hct_efficiency s.hct_impact hct))
    unfold mnc_conc flow_factor interface_factor
    have hrw : tlc * (lymph_percent / 100) * 1.3 * 6 *
        (flow_rate / s.flow_range.2 * hct_efficiency s.hct_impact hct) *
        (1.25 * hct_efficiency s.hct_impact hct) =
        tlc * (lymph_percent / 100) * 1.3 * 6 * (flow_rate / s.flow_range.2) *
          1.25 * hct_efficiency s.hct_impact hct ^ 2 := by ring
    rw [hrw]
    have hc : 0 ≤ tlc * (lymph_percent / 100) * 1.3 * 6 *
        (flow_rate / s.flow_range.2) * 1.25 :=
      mul_nonneg (mul_nonneg (mul_nonneg (mul_nonneg
        (mul_nonneg htlc (div_nonneg hlp (by norm_num))) (by norm_num))
        (by norm_num)) (div_nonneg hflow hmax.le)) (by norm_num)
    exact mul_nonneg hc (sq_nonneg _)
  · show 0 ≤ rbc_contam s.rbc_base_contam hct plasma_removal
    unfold rbc_contam
    have h1 : (0 : ℝ) ≤ 1 - plasma_removal / 25 := by
      have : plasma_removal / 25 ≤ 1 := (div_le_one (by norm_num)).mpr hpr
      linarith
    exact mul_nonneg (mul_nonneg hbase.le (div_nonneg hhct (by norm_num))) h1

/-- C4 amended, witness: the Haemonetics profile at an in-range input
(`plasma_removal = 20 ≤ 25`) has non-negative MNC concentration and
red-cell contamination. -/
theorem composition_nonneg_witness :
    LYMPHODEPLETION_SETTINGS "Haemonetics" = some haemoneticsSettings ∧
    0 ≤ (calcCore haemoneticsSettings haemoneticsBag 10 40 40 25 3 true 20 45
        20 12).mnc_conc ∧
    0 ≤ (calcCore haemoneticsSettings haemoneticsBag 10 40 40 25 3 true 20 45
        20 12).rbc_contam := by
  have hs : LYMPHODEPLETION_SETTINGS "Haemonetics" = some haemoneticsSettings := by
    simp [LYMPHODEPLETION_SETTINGS]
  exact ⟨hs, composition_nonneg haemoneticsBag 25 3 true 20 12 hs (by norm_num)
    (by norm_num) (by norm_num) (by norm_num) (by norm_num)⟩

/-- For a registered system profile and `hct ∈ [20, 60]`, the hematocrit
efficiency is non-negative (it is at least `0.65`). -/
theorem hct_efficiency_nonneg {system : String} {s : SystemSettings} {hct : ℝ}
    (hs : LYMPHODEPLETION_SETTINGS system = some s)
    (h1 : 20 ≤ hct) (h2 : hct ≤ 60) :
    0 ≤ hct_efficiency s.hct_impact hct := by
  rcases registry_cases hs with h | h <;> subst h <;>
    simp only [hct_efficiency, spectraOptiaSettings, haemoneticsSettings] <;>
    linarith

/-- C5: For every input within the declared valid ranges (hct in `[20, 60]`,
target dose, flow, plasma removal, tlc, lymphocyte %, lamp power inside their
slider/profile ranges) and a registered system, the effective dose is
non-negative and the dose multiplier `max(1 − shielding, 0.3)` never falls
below the floor `0.3`. -/
theorem effective_dose_nonneg {system : String} {s : SystemSettings}
    (bag : BagSettings)
    {tlc lymph_percent hct lamp_power target_dose flow_rate plasma_removal : ℝ}
    (use_hood : Bool) (custom_distance acdR : ℝ)
    (hs : LYMPHODEPLETION_SETTINGS system = some s)
    (htlc : 5 ≤ tlc ∧ tlc ≤ 50)
    (hlp : 10 ≤ lymph_percent ∧ lymph_percent ≤ 90)
    (hhct : 20 ≤ hct ∧ hct ≤ 60)
    (hflow : s.flow_range.1 ≤ flow_rate ∧ flow_rate ≤ s.flow_range.2)
    (hpr : s.plasma_removal_range.1 ≤ plasma_removal ∧
      plasma_removal ≤ s.plasma_removal_range.2)
    (htd : 0.005 ≤ target_dose ∧ target_dose ≤ 5)
    (hlamp : 5 ≤ lamp_power ∧ lamp_power ≤ 50) :
    0 ≤ (calcCore s bag tlc lymph_percent hct lamp_power target_dose use_hood
        custom_distance flow_rate plasma_removal acdR).effective_dose ∧
    0.3 ≤ max (1 - shielding_of
        (calcCore s bag tlc lymph_percent hct lamp_power target_dose use_hood
          custom_distance flow_rate plasma_removal acdR).mnc_conc
        (calcCore s bag tlc lymph_percent hct lamp_power target_dose use_hood
          custom_distance flow_rate plasma_removal acdR).rbc_contam hct) 0.3 := by
  refine ⟨?_, le_max_right _ _⟩
  show 0 ≤ effective_dose_of target_dose (transmission_of bag)
    (shielding_of
      (mnc_conc tlc lymph_percent
        (flow_factor flow_rate s.flow_range.2 (hct_efficiency s.hct_impact hct))
        (interface_factor (hct_efficiency s.hct_impact hct)))
      (rbc_contam s.rbc_base_contam hct plasma_removal) hct)
    (depletion_factor (hct_efficiency s.hct_impact hct))
  unfold effective_dose_of depletion_factor
  have hT : 0 < transmission_of bag := Real.exp_pos _
  have hmax : (0 : ℝ) ≤ max (1 - shielding_of
      (mnc_conc tlc lymph_percent
        (flow_factor flow_rate s.flow_range.2 (hct_efficiency s.hct_impact hct))
        (interface_factor (hct_efficiency s.hct_impact hct)))
      (rbc_contam s.rbc_base_contam hct plasma_removal) hct) 0.3 :=
    le_trans (by norm_num) (le_max_right _ _)
  have he : 0 ≤ hct_efficiency s.hct_impact hct :=
    hct_efficiency_nonneg hs hhct.1 hhct.2
  have htd0 : (0 : ℝ) ≤ target_dose := le_trans (by norm_num) htd.1
  exact mul_nonneg (mul_nonneg (mul_nonneg htd0 hT.le) hmax) (by linarith)

/-- C5 witness: the baseline scenario (Spectra Optia, all inputs at their
defaults, inside every declared range) has a non-negative effective dose and
a dose multiplier at least `0.3`. -/
theorem effective_dose_nonneg_witness :
    LYMPHODEPLETION_SETTINGS "Spectra Optia" = some spectraOptiaSettings ∧
    0 ≤ (calcCore spectraOptiaSettings spectraBag 10 40 40 25 3 true 20 45 20
        12).effective_dose ∧
    0.3 ≤ max (1 - shielding_of
        (calcCore spectraOptiaSettings spectraBag 10 40 40 25 3 true 20 45 20
          12).mnc_conc
        (calcCore spectraOptiaSettings spectraBag 10 40 40 25 3 true 20 45 20
          12).rbc_contam 40) 0.3 := by
  have hs : LYMPHODEPLETION_SETTINGS "Spectra Optia" = some spectraOptiaSettings := by
    simp [LYMPHODEPLETION_SETTINGS]
  have h := @effective_dose_nonneg "Spectra Optia" spectraOptiaSettings
    spectraBag 10 40 40 25 3 45 20 true 20 12 hs
    (by norm_num) (by norm_num) (by norm_num)
    (by norm_num [spectraOptiaSettings]) (by norm_num [spectraOptiaSettings])
    (by norm_num) (by norm_num)
  exact ⟨hs, h.1, h.2⟩

/-- C6: for every registered bag type the transmission fraction lies in
`(0, 1]`. -/
theorem transmission_in_unit_interval {name : String} {b : BagSettings}
    (hb : BAG_TYPES name = some b) :
    0 < transmission_of b ∧ transmission_of b ≤ 1 := by
  refine ⟨Real.exp_pos _, ?_⟩
  unfold transmission_of
  rw [Real.exp_le_one_iff]
  have hd : 0 ≤ b.thickness := by
    rcases bag_registry_cases hb with h | h <;> subst h <;>
      simp only [spectraBag, haemoneticsBag] <;> norm_num
  have h0 := Real.sqrt_nonneg (3 * b.absorption * (b.absorption + b.scattering))
  nlinarith

/-- C6 witness: the Spectra Optia (Polyethylene) bag is registered and its
transmission lies in `(0, 1]`. -/
theorem transmission_in_unit_interval_witness :
    BAG_TYPES "Spectra Optia (Polyethylene)" = some spectraBag ∧
    0 < transmission_of spectraBag ∧ transmission_of spectraBag ≤ 1 := by
  have hb : BAG_TYPES "Spectra Optia (Polyethylene)" = some spectraBag := by
    simp [BAG_TYPES]
  exact ⟨hb, transmission_in_unit_interval hb⟩

/-- C7: for every system name not present in the registry, the engine fails
with an `unknownProfile` error carrying the unregistered name, and never
returns a (partially computed) result. -/
theorem unknown_system_fails (tlc lymph_percent hct : ℝ) (system : String)
    (lamp_power target_dose : ℝ) (use_hood : Bool) (custom_distance : ℝ)
    (bag_type : String) (flow_rate plasma_removal acdR : ℝ)
    (h : LYMPHODEPLETION_SETTINGS system = none) :
    calculate_lymphodepletion tlc lymph_percent hct system lamp_power
      target_dose use_hood custom_distance bag_type flow_rate plasma_removal
      acdR = .error (.unknownProfile system) := by
  unfold calculate_lymphodepletion
  rw [h]

/-- C7 witness: `"Acme 9000"` is not registered and the engine fails with
`unknownProfile "Acme 9000"`. -/
theorem unknown_system_fails_witness :
    LYMPHODEPLETION_SETTINGS "Acme 9000" = none ∧
    calculate_lymphodepletion 10 40 40 "Acme 9000" 25 3 true 20
      "Spectra Optia (Polyethylene)" 45 20 12 =
      .error (.unknownProfile "Acme 9000") := by
  have h : LYMPHODEPLETION_SETTINGS "Acme 9000" = none := by
    simp [LYMPHODEPLETION_SETTINGS]
  exact ⟨h, unknown_system_fails 10 40 40 "Acme 9000" 25 3 true 20
    "Spectra Optia (Polyethylene)" 45 20 12 h⟩

/-- C8 counterexample: with a non-positive source distance (hood off,
`custom_distance = 0`) the engine does NOT fail: it returns a computed result
whose `distance` field is `0`.  (In the floating-point source the intensity is
then non-finite; no `InvalidGeometry` check exists anywhere in the code.) -/
theorem no_geometry_validation_counterexample :
    calculate_lymphodepletion 10 40 40 "Spectra Optia" 25 3 false 0
      "Spectra Optia (Polyethylene)" 45 20 12 =
      .ok (calcCore spectraOptiaSettings spectraBag 10 40 40 25 3 false 0 45 20
        12) ∧
    (calcCore spectraOptiaSettings spectraBag 10 40 40 25 3 false 0 45 20
      12).distance = 0 := by
  constructor
  · have h1 : LYMPHODEPLETION_SETTINGS "Spectra Optia" = some spectraOptiaSettings := by
      simp [LYMPHODEPLETION_SETTINGS]
    have h2 : BAG_TYPES "Spectra Optia (Polyethylene)" = some spectraBag := by
      simp [BAG_TYPES]
    unfold calculate_lymphodepletion
    rw [h1, h2]
  · show distance_of false 0 = 0
    simp [distance_of]

/-- C8 amended: the engine performs no geometry validation; whenever the
system and bag names are registered it returns a computed result for every
custom distance, including non-positive ones — there is no `InvalidGeometry`
failure path in the code. -/
theorem no_geometry_validation {system bag_name : String}
    {s : SystemSettings} {b : BagSettings}
    (tlc lymph_percent hct lamp_power target_dose : ℝ)
    (custom_distance flow_rate plasma_removal acdR : ℝ)
    (hs : LYMPHODEPLETION_SETTINGS system = some s)
    (hb : BAG_TYPES bag_name = some b)
    (hcd : custom_distance ≤ 0) :
    calculate_lymphodepletion tlc lymph_percent hct system lamp_power
      target_dose false custom_distance bag_name flow_rate plasma_removal
      acdR =
      .ok (calcCore s b tlc lymph_percent hct lamp_power target_dose false
        custom_distance flow_rate plasma_removal acdR) := by
  unfold calculate_lymphodepletion
  rw [hs, hb]

/-- C8 amended, witness: at distance `-5` (hood off) the engine still returns
a computed result. -/
theorem no_geometry_validation_witness :
    LYMPHODEPLETION_SETTINGS "Spectra Optia" = some spectraOptiaSettings ∧
    BAG_TYPES "Spectra Optia (Polyethylene)" = some spectraBag ∧
    (-5 : ℝ) ≤ 0 ∧
    calculate_lymphodepletion 10 40 40 "Spectra Optia" 25 3 false (-5)
      "Spectra Optia (Polyethylene)" 45 20 12 =
      .ok (calcCore spectraOptiaSettings spectraBag 10 40 40 25 3 false (-5) 45
        20 12) := by
  have h1 : LYMPHODEPLETION_SETTINGS "Spectra Optia" = some spectraOptiaSettings := by
    simp [LYMPHODEPLETION_SETTINGS]
  have h2 : BAG_TYPES "Spectra Optia (Polyethylene)" = some spectraBag := by
    simp [BAG_TYPES]
  exact ⟨h1, h2, by norm_num,
    no_geometry_validation 10 40 40 25 3 (-5) 45 20 12 h1 h2 (by norm_num)⟩

/-- For a strictly positive dose, the faster lymphocyte decay constant gives
strictly lower lymphocyte viability than CD34+ viability. -/
theorem viability_strict {d : ℝ} (hd : 0 < d) :
    viability 1.5 d < viability 0.25 d := by
  unfold viability
  have h : Real.exp (-1.5 * d) < Real.exp (-0.25 * d) := by
    apply Real.exp_lt_exp.mpr
    nlinarith
  linarith

/-- C9: for every input whose computed effective dose is strictly positive,
the predicted lymphocyte viability `100·exp(−1.5·dose)` is strictly less than
the predicted CD34+ viability `100·exp(−0.25·dose)`. -/
theorem lymph_viability_lt_cd34 (params : SystemSettings) (bag : BagSettings)
    (tlc lymph_percent hct lamp_power target_dose : ℝ) (use_hood : Bool)
    (custom_distance flow_rate plasma_removal acdR : ℝ)
    (h : 0 < (calcCore params bag tlc lymph_percent hct lamp_power target_dose
      use_hood custom_distance flow_rate plasma_removal acdR).effective_dose) :
    (calcCore params bag tlc lymph_percent hct lamp_power target_dose use_hood
        custom_distance flow_rate plasma_removal acdR).lymph_viability <
      (calcCore params bag tlc lymph_percent hct lamp_power target_dose
        use_hood custom_distance flow_rate plasma_removal acdR).cd34_viability :=
  viability_strict h

/-- An `effective_dose_of` with positive target dose, transmission and
hematocrit efficiency is positive. -/
theorem effective_dose_of_pos {t T e : ℝ} (sh : ℝ) (ht : 0 < t) (hT : 0 < T)
    (he : 0 < e) : 0 < effective_dose_of t T sh (depletion_factor e) := by
  unfold effective_dose_of depletion_factor
  have hmax : (0 : ℝ) < max (1 - sh) 0.3 :=
    lt_of_lt_of_le (by norm_num) (le_max_right _ _)
  exact mul_pos (mul_pos (mul_pos ht hT) hmax) (by linarith)

/-- The baseline scenario's effective dose is strictly positive. -/
theorem baseline_dose_pos :
    0 < (calcCore spectraOptiaSettings spectraBag 10 40 40 25 3 true 20 45 20
      12).effective_dose :=
  effective_dose_of_pos _ (by norm_num) (Real.exp_pos _)
    (by norm_num [hct_efficiency, spectraOptiaSettings])

/-- C9 witness: the baseline scenario has a positive effective dose and
lymphocyte viability strictly below CD34+ viability there. -/
theorem lymph_viability_lt_cd34_witness :
    0 < (calcCore spectraOptiaSettings spectraBag 10 40 40 25 3 true 20 45 20
      12).effective_dose ∧
    (calcCore spectraOptiaSettings spectraBag 10 40 40 25 3 true 20 45 20
        12).lymph_viability <
      (calcCore spectraOptiaSettings spectraBag 10 40 40 25 3 true 20 45 20
        12).cd34_viability :=
  ⟨baseline_dose_pos,
    lymph_viability_lt_cd34 spectraOptiaSettings spectraBag 10 40 40 25 3 true
      20 45 20 12 baseline_dose_pos⟩

/-- Bounds of the decay law `100·exp(−k·d)` for a positive decay constant. -/
theorem viability_bounds_aux {k : ℝ} (hk : 0 < k) (d : ℝ) :
    (0 ≤ d → 0 < viability k d ∧ viability k d ≤ 100 ∧
      (viability k d = 100 ↔ d = 0)) ∧
    (d < 0 → 100 < viability k d) := by
  unfold viability
  constructor
  · intro hd
    refine ⟨by positivity, ?_, ?_⟩
    · have h1 : Real.exp (-k * d) ≤ 1 := by
        rw [Real.exp_le_one_iff]
        nlinarith
      linarith
    · constructor
      · intro h
        have h2 : Real.exp (-k * d) = 1 := by linarith
        have h3 : -k * d = 0 := (Real.exp_eq_one_iff _).mp h2
        rcases mul_eq_zero.mp h3 with h4 | h4
        · exact absurd (neg_eq_zero.mp h4) (by linarith)
        · exact h4
      · intro h
        subst h
        norm_num
  · intro hd
    have h1 : 1 < Real.exp (-k * d) := by
      rw [Real.one_lt_exp_iff]
      nlinarith
    linarith

/-- C10: when the computed effective dose is non-negative, both predicted
viabilities lie in `(0, 100]` and each equals exactly `100` only when the
dose is exactly zero; when the dose is negative, both exceed `100` —
unclamped. -/
theorem viability_bounds (params : SystemSettings) (bag : BagSettings)
    (tlc lymph_percent hct lamp_power target_dose : ℝ) (use_hood : Bool)
    (custom_distance flow_rate plasma_removal acdR : ℝ) :
    let r := calcCore params bag tlc lymph_percent hct lamp_power target_dose
      use_hood custom_distance flow_rate plasma_removal acdR
    (0 ≤ r.effective_dose →
      (0 < r.lymph_viability ∧ r.lymph_viability ≤ 100 ∧
        (r.lymph_viability = 100 ↔ r.effective_dose = 0)) ∧
      (0 < r.cd34_viability ∧ r.cd34_viability ≤ 100 ∧
        (r.cd34_viability = 100 ↔ r.effective_dose = 0))) ∧
    (r.effective_dose < 0 →
      100 < r.lymph_viability ∧ 100 < r.cd34_viability) := by
  intro r
  refine ⟨fun hd => ⟨?_, ?_⟩, fun hd => ⟨?_, ?_⟩⟩
  · exact (viability_bounds_aux (by norm_num : (0 : ℝ) < 1.5) _).1 hd
  · exact (viability_bounds_aux (by norm_num : (0 : ℝ) < 0.25) _).1 hd
  · exact (viability_bounds_aux (by norm_num : (0 : ℝ) < 1.5) _).2 hd
  · exact (viability_bounds_aux (by norm_num : (0 : ℝ) < 0.25) _).2 hd

/-- An `effective_dose_of` with negative target dose but positive
transmission and hematocrit efficiency is negative. -/
theorem effective_dose_of_neg {t T e : ℝ} (sh : ℝ) (ht : t < 0) (hT : 0 < T)
    (he : 0 < e) : effective_dose_of t T sh (depletion_factor e) < 0 := by
  unfold effective_dose_of depletion_factor
  have hmax : (0 : ℝ) < max (1 - sh) 0.3 :=
    lt_of_lt_of_le (by norm_num) (le_max_right _ _)
  exact mul_neg_of_neg_of_pos
    (mul_neg_of_neg_of_pos (mul_neg_of_neg_of_pos ht hT) hmax) (by linarith)

/-- A negative target dose drives the baseline scenario's effective dose
negative. -/
theorem baseline_neg_dose :
    (calcCore spectraOptiaSettings spectraBag 10 40 40 25 (-3) true 20 45 20
      12).effective_dose < 0 :=
  effective_dose_of_neg _ (by norm_num) (Real.exp_pos _)
    (by norm_num [hct_efficiency, spectraOptiaSettings])

/-- C10 witness: at the baseline scenario (non-negative dose) both
viabilities are in `(0, 100]` and equal `100` only at dose zero; flipping the
target dose to `-3` (negative dose) puts both viabilities above `100`. -/
theorem viability_bounds_witness :
    (0 ≤ (calcCore spectraOptiaSettings spectraBag 10 40 40 25 3 true 20 45 20
        12).effective_dose ∧
      (0 < (calcCore spectraOptiaSettings spectraBag 10 40 40 25 3 true 20 45
          20 12).lymph_viability ∧
        (calcCore spectraOptiaSettings spectraBag 10 40 40 25 3 true 20 45 20
          12).lymph_viability ≤ 100 ∧
        ((calcCore spectraOptiaSettings spectraBag 10 40 40 25 3 true 20 45 20
            12).lymph_viability = 100 ↔
          (calcCore spectraOptiaSettings spectraBag 10 40 40 25 3 true 20 45
            20 12).effective_dose = 0)) ∧
      (0 < (calcCore spectraOptiaSettings spectraBag 10 40 40 25 3 true 20 45
          20 12).cd34_viability ∧
        (calcCore spectraOptiaSettings spectraBag 10 40 40 25 3 true 20 45 20
          12).cd34_viability ≤ 100 ∧
        ((calcCore spectraOptiaSettings spectraBag 10 40 40 25 3 true 20 45 20
            12).cd34_viability = 100 ↔
          (calcCore spectraOptiaSettings spectraBag 10 40 40 25 3 true 20 45
            20 12).effective_dose = 0))) ∧
    ((calcCore spectraOptiaSettings spectraBag 10 40 40 25 (-3) true 20 45 20
        12).effective_dose < 0 ∧
      100 < (calcCore spectraOptiaSettings spectraBag 10 40 40 25 (-3) true 20
        45 20 12).lymph_viability ∧
      100 < (calcCore spectraOptiaSettings spectraBag 10 40 40 25 (-3) true 20
        45 20 12).cd34_viability) := by
  have hpos := baseline_dose_pos
  have h1 := (viability_bounds spectraOptiaSettings spectraBag 10 40 40 25 3
    true 20 45 20 12).1 hpos.le
  have hneg := baseline_neg_dose
  have h2 := (viability_bounds spectraOptiaSettings spectraBag 10 40 40 25
    (-3) true 20 45 20 12).2 hneg
  exact ⟨⟨hpos.le, h1.1, h1.2⟩, hneg, h2.1, h2.2⟩

end Lymphodepletion
